import Mathlib

/-!
Verification of the account/session/notes core of `src/app.py`.

The Python program is a Streamlit application over PostgreSQL.  We embed
its pure logic shallowly:

* the `users` and `notes` tables become lists of records inside a `DB`
  structure, with the `SERIAL` id counters made explicit;
* `st.session_state` (a string-keyed dictionary holding the keys
  `authenticated`, `user_id`, `email`) becomes a `Session` structure whose
  fields are `Option`-valued: `none` models a key that was never set, and
  the inner value models what the Python code stored under the key;
* the passlib `bcrypt` functions are abstracted by a record keeping the
  salt and the hashed password, which captures the library's contract:
  `verify p (hash salt p) = true`, and verification fails on any other
  password;
* `datetime.now()` / `NOW()` timestamps are passed in explicitly as `Nat`
  arguments.

Each operation below is translated line by line from the function of
`src/app.py` named in its doc comment.
-/

/-- Abstraction of a passlib bcrypt digest: the salt together with the
password it was computed from.  This models exactly the observable
behaviour of the library (`verify` succeeds on the original password and
fails on every other), without reproducing the hash arithmetic. -/
structure BcryptHash where
  salt : Nat
  pwd : String
deriving DecidableEq, Repr

/-- Model of `passlib.hash.bcrypt.hash` (src/app.py line 65): hashing a
password under a fresh salt. -/
def bcrypt_hash (salt : Nat) (password : String) : BcryptHash :=
  ⟨salt, password⟩

/-- Model of `passlib.hash.bcrypt.verify` (src/app.py line 87): checking a
password against a stored digest. -/
def bcrypt_verify (password : String) (h : BcryptHash) : Bool :=
  h.pwd == password

/-- A row of the `users` table (`src/app.py` lines 31-37):
`id SERIAL PRIMARY KEY, email UNIQUE NOT NULL, password_hash NOT NULL`. -/
structure User where
  id : Nat
  email : String
  password_hash : BcryptHash
deriving DecidableEq, Repr

/-- A row of the `notes` table (`src/app.py` lines 39-47):
`id SERIAL PRIMARY KEY, user_id, text, created_at`. -/
structure Note where
  id : Nat
  user_id : Nat
  text : String
  created_at : Nat
deriving DecidableEq, Repr

/-- The database state: both tables plus the `SERIAL` counters that assign
the next fresh primary key. -/
structure DB where
  users : List User
  nextUserId : Nat
  notes : List Note
  nextNoteId : Nat
deriving DecidableEq, Repr

/-- The Streamlit `st.session_state` dictionary, restricted to the three
keys the program uses.  An outer `none` means the key is absent from the
dictionary; `user_id` and `email` store Python values that may themselves
be `None`, hence the nested `Option`. -/
structure Session where
  authenticated : Option Bool
  user_id : Option (Option Nat)
  email : Option (Option String)
deriving DecidableEq, Repr

/-- A session in which no key has ever been set. -/
def freshSession : Session :=
  ⟨none, none, none⟩

/-- The session as initialised by `main` (src/app.py lines 138-141):
`authenticated = False`, `user_id = None`, `email = None`. -/
def initSession : Session :=
  ⟨some false, some none, some none⟩

/-- `SELECT id, password_hash FROM users WHERE email=%s` followed by
`fetchone()`: the first row whose email matches. -/
def lookup_user (db : DB) (email : String) : Option User :=
  db.users.find? (fun u => u.email == email)

/-- `register_user` (src/app.py lines 53-72).  The `SELECT` / `fetchone`
check is `lookup_user`; on a hit the function returns `False` without
touching the table, otherwise it hashes the password and inserts a fresh
row.  The fresh salt drawn by bcrypt is passed explicitly. -/
def register_user (db : DB) (salt : Nat) (email password : String) :
    DB × Bool :=
  match lookup_user db email with
  | some _ => (db, false)
  | none =>
    let password_hash := bcrypt_hash salt password
    ({ db with
        users := db.users ++ [⟨db.nextUserId, email, password_hash⟩],
        nextUserId := db.nextUserId + 1 }, true)

/-- `authenticate_user` (src/app.py lines 77-94): look the user up by
email; if absent return `False`; otherwise verify the password hash, and
on success store `authenticated`, `user_id` and `email` in the session. -/
def authenticate_user (db : DB) (s : Session) (email password : String) :
    Session × Bool :=
  match lookup_user db email with
  | none => (s, false)
  | some u =>
    if bcrypt_verify password u.password_hash then
      ({ authenticated := some true,
         user_id := some (some u.id),
         email := some (some email) }, true)
    else
      (s, false)

/-- `is_authenticated` (src/app.py lines 99-100):
`st.session_state.get("authenticated", False)`. -/
def is_authenticated (s : Session) : Bool :=
  s.authenticated.getD false

/-- Modelled from the spec: `current_user() -> optional UserId` is listed
among the Session Manager operations but has no function of its own in
`src/app.py` (the program reads `st.session_state["user_id"]` directly);
per the spec it "returns the authenticated user id or none". -/
def current_user (s : Session) : Option Nat :=
  if is_authenticated s then (s.user_id.getD none) else none

/-- `add_note` (src/app.py lines 105-112): unconditionally insert a row
into `notes` with the given owner and text and the current timestamp.
Note the function itself performs no validation of `text`. -/
def add_note (db : DB) (now : Nat) (user_id : Nat) ( text : String) : DB :=
  { db with
      notes := db.notes ++ [⟨db.nextNoteId, user_id, text, now⟩],
      nextNoteId := db.nextNoteId + 1 }

/-- Python's `str.strip()` with no argument: remove whitespace characters
from both ends of the string. -/
def py_strip (s : String) : String :=
  ⟨((s.data.dropWhile Char.isWhitespace).reverse.dropWhile
      Char.isWhitespace).reverse⟩

/-- The add-note flow of `main` (src/app.py lines 196-202): the button
handler calls `add_note` with the stripped text only when
`new_note.strip()` is truthy (non-empty), and otherwise only shows a
warning, leaving the database untouched. -/
def main_add_note (db : DB) (now : Nat) (user_id : Nat)
    (new_note : String) : DB :=
  if py_strip new_note ≠ "" then add_note db now user_id (py_strip new_note)
  else db

/-- The comparison underlying `ORDER BY created_at DESC`
(src/app.py line 124): a row precedes another when its timestamp is not
smaller. -/
def noteDescOrder (a b : Note) : Prop :=
  b.created_at ≤ a.created_at

instance : DecidableRel noteDescOrder :=
  fun a b => inferInstanceAs (Decidable (b.created_at ≤ a.created_at))

instance : IsTotal Note noteDescOrder :=
  ⟨fun a b => Nat.le_total b.created_at a.created_at⟩

instance : IsTrans Note noteDescOrder :=
  ⟨fun _ _ _ h1 h2 => Nat.le_trans h2 h1⟩

/-- `load_notes` (src/app.py lines 117-128):
`SELECT ... FROM notes WHERE user_id = %s ORDER BY created_at DESC` —
the rows owned by `user_id`, arranged in descending `created_at` order. -/
def load_notes (db : DB) (user_id : Nat) : List Note :=
  List.insertionSort noteDescOrder
    (db.notes.filter (fun n => n.user_id == user_id))

/-- The logout branch of `main` (src/app.py lines 213-220): if the session
is authenticated, reset the three keys; otherwise only print a message,
leaving the session as it is. -/
def logout (s : Session) : Session :=
  if is_authenticated s then
    { authenticated := some false, user_id := some none, email := some none }
  else
    s

/-- The operations a user interaction can perform against the shared
database and the per-connection session.  Fresh salts and timestamps are
parameters of the respective operations. -/
inductive Op where
  | register (salt : Nat) (email password : String)
  | login (email password : String)
  | logout
  | addNote (now : Nat) (user_id : Nat) ( text : String)
deriving DecidableEq, Repr

/-- One step of the interaction: `register` touches only the database,
`login`/`logout` only the session, `addNote` only the notes table. -/
def stepOp (st : DB × Session) : Op → DB × Session
  | .register salt e p => ((register_user st.1 salt e p).1, st.2)
  | .login e p => (st.1, (authenticate_user st.1 st.2 e p).1)
  | .logout => (st.1, logout st.2)
  | .addNote now uid t => (add_note st.1 now uid t, st.2)

/-- States reachable from an arbitrary initial database and the session
that `main` initialises, by any sequence of operations. -/
inductive Reachable (db0 : DB) : DB × Session → Prop
  | init : Reachable db0 (db0, initSession)
  | step {st : DB × Session} (h : Reachable db0 st) (op : Op) :
      Reachable db0 (stepOp st op)

/-! Concrete fixtures used by the witness theorems. -/

/-- An empty database with the `SERIAL` counters at their start value. -/
def dbEmpty : DB :=
  ⟨[], 1, [], 1⟩

/-- A concrete registered user. -/
def userW : User :=
  ⟨1, "a@b.c", ⟨0, "pw"⟩⟩

/-- A database holding exactly `userW` and no notes. -/
def dbW : DB :=
  ⟨[userW], 2, [], 1⟩

/-- A note owned by user 1. -/
def noteA : Note :=
  ⟨1, 1, "alpha", 10⟩

/-- A note owned by user 2. -/
def noteB : Note :=
  ⟨2, 2, "beta", 20⟩

/-- A database holding `userW` together with one note for each of two
owners. -/
def dbN : DB :=
  ⟨[userW], 2, [noteA, noteB], 3⟩

/-- The state reached from `(dbW, initSession)` by one successful login. -/
def stW : DB × Session :=
  stepOp (dbW, initSession) (Op.login ("a@b.c") ("pw"))

/-- The invariant tying a session to the database: either the session is
authenticated and its `user_id`/`email` are those of a user row present in
the table, or it is the unauthenticated reset state with both keys set to
`None`. -/
def SessionInv (db : DB) (s : Session) : Prop :=
  (s.authenticated = some true ∧
      ∃ u ∈ db.users, s.user_id = some (some u.id) ∧
        s.email = some (some u.email)) ∨
  (s.authenticated = some false ∧ s.user_id = some none ∧ s.email = some none)

/-- If no user row carries the email, the `SELECT ... WHERE email=%s`
lookup returns no row. -/
theorem lookup_user_eq_none (db : DB) (email : String)
    (h : ∀ u ∈ db.users, u.email ≠ email) : lookup_user db email = none := by
  simpa [lookup_user] using h

/-- `register_user` only ever appends to the `users` table. -/
theorem register_user_users (db : DB) (salt : Nat) (email password : String) :
    ∃ l, (register_user db salt email password).1.users = db.users ++ l := by
  cases h : lookup_user db email with
  | none => exact ⟨[⟨db.nextUserId, email, bcrypt_hash salt password⟩],
      by simp [register_user, h]⟩
  | some u => exact ⟨[], by simp [register_user, h]⟩

/-- Every operation preserves `SessionInv`. -/
theorem sessionInv_step (st : DB × Session) (op : Op)
    (h : SessionInv st.1 st.2) : SessionInv (stepOp st op).1 (stepOp st op).2 := by
  cases op with
  | register salt e p =>
    obtain ⟨l, hl⟩ := register_user_users st.1 salt e p
    dsimp [stepOp]
    rcases h with ⟨ha, u, hu, hid, hem⟩ | hrest
    · exact Or.inl ⟨ha, u, by rw [hl]; exact List.mem_append_left _ hu, hid, hem⟩
    · exact Or.inr hrest
  | login e p =>
    dsimp [stepOp]
    cases hlu : lookup_user st.1 e with
    | none => simpa [authenticate_user, hlu] using h
    | some u =>
      by_cases hv : bcrypt_verify p u.password_hash = true
      · have he : u.email = e := by simpa using List.find?_some hlu
        refine Or.inl ⟨?_, u, List.mem_of_find?_eq_some hlu, ?_, ?_⟩ <;>
          simp [authenticate_user, hlu, hv, he]
      · have hv' : bcrypt_verify p u.password_hash = false := by
          simpa using hv
        simpa [authenticate_user, hlu, hv'] using h
  | logout =>
    dsimp [stepOp]
    by_cases ha : is_authenticated st.2 = true
    · refine Or.inr ?_
      simp [logout, ha]
    · have ha' : is_authenticated st.2 = false := by simpa using ha
      simpa [logout, ha'] using h
  | addNote now uid t =>
    exact h

/-- Every reachable state satisfies `SessionInv`. -/
theorem reachable_sessionInv (db0 : DB) (st : DB × Session)
    (h : Reachable db0 st) : SessionInv st.1 st.2 := by
  induction h with
  | init => exact Or.inr ⟨rfl, rfl, rfl⟩
  | step _ op ih => exact sessionInv_step _ op ih

/-- Claim C1: for every email not already present in the users table and
every password, `register_user` succeeds, and `authenticate_user` called
immediately afterwards with the same pair succeeds and stores in the
session exactly the user id that the registration created. -/
theorem register_then_verify_succeeds_same_id (db : DB) (s : Session)
    (salt : Nat) (email password : String)
    (hfresh : ∀ u ∈ db.users, u.email ≠ email) :
    (register_user db salt email password).2 = true ∧
    (authenticate_user (register_user db salt email password).1 s
        email password).2 = true ∧
    (authenticate_user (register_user db salt email password).1 s
        email password).1.user_id = some (some db.nextUserId) := by
  have hnone : lookup_user db email = none := lookup_user_eq_none db email hfresh
  have hreg : register_user db salt email password =
      ({ db with
          users := db.users ++ [⟨db.nextUserId, email, bcrypt_hash salt password⟩],
          nextUserId := db.nextUserId + 1 }, true) := by
    simp [register_user, hnone]
  have hnone' : db.users.find? (fun u => u.email == email) = none := hnone
  have hlu : lookup_user (register_user db salt email password).1 email =
      some ⟨db.nextUserId, email, bcrypt_hash salt password⟩ := by
    rw [hreg]
    simp [lookup_user, List.find?_append, hnone', List.find?]
  refine ⟨by rw [hreg], ?_, ?_⟩ <;>
    simp [authenticate_user, hlu, bcrypt_verify, bcrypt_hash]

/-- Claim C1 witness: registering a fresh email on the empty database and
verifying the same pair succeeds and resolves user id 1. -/
theorem register_then_verify_witness :
    (register_user dbEmpty 0 ("a@b.c") ("pw")).2 = true ∧
    (authenticate_user (register_user dbEmpty 0 ("a@b.c") ("pw")).1
        freshSession ("a@b.c") ("pw")).2 = true ∧
    (authenticate_user (register_user dbEmpty 0 ("a@b.c") ("pw")).1
        freshSession ("a@b.c") ("pw")).1.user_id =
      some (some dbEmpty.nextUserId) :=
  register_then_verify_succeeds_same_id dbEmpty freshSession 0
    ("a@b.c") ("pw") (by decide)

/-- Claim C5: whenever a login attempt fails (`authenticate_user` returns
`False`), the session is left exactly as it was before the call. -/
theorem failed_login_leaves_session_unchanged (db : DB) (s : Session)
    (email password : String)
    (hfail : (authenticate_user db s email password).2 = false) :
    (authenticate_user db s email password).1 = s := by
  cases hlu : lookup_user db email with
  | none => simp [authenticate_user, hlu]
  | some u =>
    by_cases hv : bcrypt_verify password u.password_hash = true
    · exfalso
      simp [authenticate_user, hlu, hv] at hfail
    · have hv' : bcrypt_verify password u.password_hash = false := by
        simpa using hv
      simp [authenticate_user, hlu, hv']

/-- Claim C5 witness: a failing login against the singleton database
leaves the initial session untouched. -/
theorem failed_login_leaves_session_unchanged_witness :
    (authenticate_user dbW initSession ("a@b.c") ("bad")).1 = initSession :=
  failed_login_leaves_session_unchanged dbW initSession
    ("a@b.c") ("bad") (by decide)

/-- Claim C6: registering an email that already belongs to a user row
always returns `False`, whatever the password, and the database — in
particular the users table — is unchanged. -/
theorem register_existing_email_fails (db : DB) (salt : Nat)
    (email password : String) (u : User) (hu : u ∈ db.users)
    (he : u.email = email) :
    register_user db salt email password = (db, false) := by
  have hsome : (db.users.find? (fun v => v.email == email)).isSome := by
    rw [List.find?_isSome]
    exact ⟨u, hu, by simp [he]⟩
  obtain ⟨v, hv⟩ := Option.isSome_iff_exists.mp hsome
  have hv' : lookup_user db email = some v := hv
  simp [register_user, hv']

/-- Claim C6 witness: re-registering the existing email with a different
password fails and leaves the database unchanged. -/
theorem register_existing_email_fails_witness :
    register_user dbW 5 ("a@b.c") ("other") = (dbW, false) :=
  register_existing_email_fails dbW 5 ("a@b.c") ("other") userW
    (by decide) rfl

/-- Claim C8: both failure modes of `authenticate_user` — no user row with
the email, and a user row whose stored hash does not verify against the
password — produce the identical observable outcome `(s, false)`: the
result does not reveal which check failed. -/
theorem invalid_login_undifferentiated (db : DB) (s : Session)
    (email password : String) :
    (lookup_user db email = none →
      authenticate_user db s email password = (s, false)) ∧
    (∀ u, lookup_user db email = some u →
      bcrypt_verify password u.password_hash = false →
      authenticate_user db s email password = (s, false)) := by
  constructor
  · intro h
    simp [authenticate_user, h]
  · intro u h hv
    simp [authenticate_user, h, hv]

/-- Claim C8 witness: an unknown email and a wrong password for a known
email yield the very same result value. -/
theorem invalid_login_undifferentiated_witness :
    authenticate_user dbW initSession ("zz@z.z") ("pw") =
      (initSession, false) ∧
    authenticate_user dbW initSession ("a@b.c") ("wrong") =
      (initSession, false) :=
  ⟨(invalid_login_undifferentiated dbW initSession ("zz@z.z") ("pw")).1
      (by decide),
   (invalid_login_undifferentiated dbW initSession ("a@b.c") ("wrong")).2
      userW (by decide) (by decide)⟩

/-- Claim C2 counterexample: calling `add_note` itself with empty or
whitespace-only text does not fail — it inserts a row into the notes
table (the function performs no validation; the blank-text check lives in
the caller `main`). -/
theorem add_note_blank_text_inserts_row :
    (add_note dbW 7 1 ("")).notes = [⟨1, 1, "", 7⟩] ∧
    (add_note dbW 7 1 ("   ")).notes = [⟨1, 1, "   ", 7⟩] :=
  ⟨rfl, rfl⟩

/-- Claim C2 as amended: the blank-text rejection is performed by the
add-note flow of `main`, not by `add_note`; when the text trims to the
empty string the flow inserts no row and leaves the database unchanged. -/
theorem main_add_note_rejects_blank (db : DB) (now uid : Nat) (t : String)
    (h : py_strip t = "") : main_add_note db now uid t = db := by
  simp [main_add_note, h]

/-- Claim C2 witness: the `main` flow rejects both the empty text and the
three-space text, leaving the database unchanged. -/
theorem main_add_note_rejects_blank_witness :
    main_add_note dbW 7 1 ("") = dbW ∧
    main_add_note dbW 7 1 ("   ") = dbW :=
  ⟨main_add_note_rejects_blank dbW 7 1 ("") (by decide),
   main_add_note_rejects_blank dbW 7 1 ("   ") (by decide)⟩

/-- Claim C4: `load_notes user_id` contains exactly the notes owned by
`user_id`, is ordered by `created_at` descending, is empty (not an error)
when the user owns no notes, and a note listed for one user id never
appears in the listing of a different user id. -/
theorem load_notes_spec (db : DB) (uid : Nat) :
    (∀ n, n ∈ load_notes db uid ↔ n ∈ db.notes ∧ n.user_id = uid) ∧
    List.Sorted noteDescOrder (load_notes db uid) ∧
    ((∀ n ∈ db.notes, n.user_id ≠ uid) → load_notes db uid = []) ∧
    (∀ uid2, uid2 ≠ uid → ∀ n, n ∈ load_notes db uid →
      n ∉ load_notes db uid2) := by
  have hmem : ∀ uid2 n, n ∈ load_notes db uid2 ↔
      n ∈ db.notes ∧ n.user_id = uid2 := by
    intro uid2 n
    simp [load_notes, List.mem_insertionSort, List.mem_filter]
  refine ⟨hmem uid, ?_, ?_, ?_⟩
  · exact List.sorted_insertionSort noteDescOrder _
  · intro h
    have hfil : db.notes.filter (fun n => n.user_id == uid) = [] := by
      rw [List.filter_eq_nil_iff]
      intro a ha
      simpa using h a ha
    unfold load_notes
    rw [hfil]
    rfl
  · intro uid2 hne n hn hn2
    apply hne
    have h2 : n.user_id = uid2 := ((hmem uid2 n).mp hn2).2
    rw [← h2]
    exact ((hmem uid n).mp hn).2

/-- Claim C4 witness: in the two-note database, user 1's note is listed
for user 1, a user with no notes gets the empty listing, and user 1's
note is absent from user 2's listing. -/
theorem load_notes_spec_witness :
    noteA ∈ load_notes dbN 1 ∧ load_notes dbN 3 = [] ∧
    noteA ∉ load_notes dbN 2 :=
  ⟨((load_notes_spec dbN 1).1 noteA).mpr (by decide),
   (load_notes_spec dbN 3).2.2.1 (by decide),
   (load_notes_spec dbN 1).2.2.2 2 (by decide) noteA
     (((load_notes_spec dbN 1).1 noteA).mpr (by decide))⟩

/-- Claim C7: from every reachable state, after the logout branch of
`main` runs, `is_authenticated` is `false` and `current_user` is `none`,
and the `user_id`/`email` keys hold `None` — also when the session was
already unauthenticated (the branch is then a no-op, not an error). -/
theorem logout_unauthenticates (db0 : DB) (st : DB × Session)
    (h : Reachable db0 st) :
    is_authenticated (logout st.2) = false ∧
    current_user (logout st.2) = none ∧
    (logout st.2).user_id = some none ∧ (logout st.2).email = some none := by
  rcases reachable_sessionInv db0 st h with ⟨ha, _⟩ | ⟨ha, hid, hem⟩
  · have hauth : is_authenticated st.2 = true := by
      simp [is_authenticated, ha]
    have hlog : logout st.2 =
        { authenticated := some false, user_id := some none,
          email := some none } := by
      simp [logout, hauth]
    rw [hlog]
    exact ⟨rfl, rfl, rfl, rfl⟩
  · have hauth : is_authenticated st.2 = false := by
      simp [is_authenticated, ha]
    have hlog : logout st.2 = st.2 := by
      simp [logout, hauth]
    rw [hlog]
    exact ⟨hauth, by simp [current_user, hauth], hid, hem⟩

/-- Claim C7 witness: logging out of the freshly initialised (already
unauthenticated) session leaves it unauthenticated with no user. -/
theorem logout_unauthenticates_witness :
    is_authenticated (logout (dbW, initSession).2) = false ∧
    current_user (logout (dbW, initSession).2) = none ∧
    (logout (dbW, initSession).2).user_id = some none ∧
    (logout (dbW, initSession).2).email = some none :=
  logout_unauthenticates dbW (dbW, initSession) Reachable.init

/-- Claim C9: in every reachable state, an authenticated session carries a
present `user_id` and `email` that are the id and email of a user row
existing in the users table. -/
theorem authenticated_session_refers_to_user (db0 : DB)
    (st : DB × Session) (h : Reachable db0 st)
    (hauth : is_authenticated st.2 = true) :
    ∃ uid em, st.2.user_id = some (some uid) ∧
      st.2.email = some (some em) ∧
      ∃ u ∈ st.1.users, u.id = uid ∧ u.email = em := by
  rcases reachable_sessionInv db0 st h with ⟨_, u, hu, hid, hem⟩ | ⟨ha, _, _⟩
  · exact ⟨u.id, u.email, hid, hem, u, hu, rfl, rfl⟩
  · simp [is_authenticated, ha] at hauth

/-- Claim C9 witness: the state reached by one successful login holds the
id and email of the stored user row. -/
theorem authenticated_session_refers_to_user_witness :
    ∃ uid em, stW.2.user_id = some (some uid) ∧
      stW.2.email = some (some em) ∧
      ∃ u ∈ stW.1.users, u.id = uid ∧ u.email = em :=
  authenticated_session_refers_to_user dbW stW
    (Reachable.step Reachable.init (Op.login ("a@b.c") ("pw")))
    (by decide)

/-- Claim C10: on a session in which no key has ever been set, the
`st.session_state.get` call inside `is_authenticated` defaults the
missing `authenticated` key to `False`, so the query returns `false`
instead of failing. -/
theorem fresh_session_is_not_authenticated :
    freshSession.authenticated = none ∧
    is_authenticated freshSession = false :=
  ⟨rfl, rfl⟩
